import Mathlib

/-!
Verification of the OAuth2 consumer module (flask_dance/consumer/oauth2.py)
against its specification. The Python code is shallowly embedded: the
blueprint configuration, the incoming request, and the Flask session store
are explicit values, and the view functions become pure functions that
return the redirect outcome together with a record of their observable
effects (session-store writes, token-exchange calls, emitted events, token
persistence calls).
-/

namespace FlaskDance

/-- Query parameters, headers, and the Flask session store are string to
string mappings; we embed them as association lists with dict semantics
(a key occurs at most once in values we build; lookup takes the first). -/
abbrev Args := List (String × String)

/-- An OAuth2 token payload is a mapping (access_token, token_type, ...). -/
abbrev Token := List (String × String)

/-- Python truthiness of a string: the empty string is falsy. -/
def strTruthy (s : String) : Bool := s != ""

/-- Python truthiness of an optional string: None and the empty string are
falsy. This embeds checks such as `if error:` and `elif self.redirect_url:`. -/
def optStrTruthy : Option String → Bool
  | some s => strTruthy s
  | none => false

/-- Dict deletion: `del d[k]` removes the key. -/
def sessDelete (fs : Args) (k : String) : Args :=
  fs.filter (fun p => p.1 != k)

/-- Dict update: `d[k] = v` replaces any previous binding of `k`. -/
def sessSet (fs : Args) (k v : String) : Args :=
  (k, v) :: sessDelete fs k

/-- `headers.get(k, d)` with a default. -/
def headerGet (headers : Args) (k d : String) : String :=
  (List.lookup k headers).getD d

/-- A Python value returned by a signal listener. The veto check in
`authorized` is the Python comparison `ret == False`, which is true for
`False` itself and for the number 0, and false for None, strings, and
arbitrary objects. -/
inductive PyRet where
  | pyNone
  | pyBool (b : Bool)
  | pyInt (n : Int)
  | pyStr (s : String)
  | pyObj
deriving DecidableEq, Repr

/-- The Python comparison `ret == False` used at line 231 of the source. -/
def pyEqFalse : PyRet → Bool
  | .pyBool b => !b
  | .pyInt n => n == 0
  | _ => false

/-- The configuration held by `OAuth2ConsumerBlueprint` (constructor,
lines 47-168 of the source): only the fields the `login` and `authorized`
views read. `state` is the construction-time `state` argument (stored as
`self.state`), `redirect_url` and `redirect_to` the post-dance redirect
configuration. -/
structure OAuth2ConsumerBlueprint where
  name : String
  client_id : String
  client_secret : String
  state : Option String
  authorization_url : String
  authorization_url_params : Args
  token_url : String
  token_url_params : Args
  redirect_url : Option String
  redirect_to : Option String
deriving DecidableEq, Repr

/-- The parts of the ambient Flask request the two views read. -/
structure Request where
  args : Args
  headers : Args
  url : String
  is_secure : Bool
deriving DecidableEq, Repr

/-- The session-store key `"{bp.name}_oauth_state"` built at lines 189 and
217 of the source: the CSRF state is namespaced by the blueprint name. -/
def stateKey (name : String) : String := name ++ "_oauth_state"

/-- Lines 194-201 of the source: the redirect target of the `authorized`
view. Precedence: the `next` query parameter when the key is present, else
a truthy configured `redirect_url`, else a truthy configured `redirect_to`
resolved through `url_for`, else the root path. -/
def computeNextUrl (bp : OAuth2ConsumerBlueprint) (urlFor : String → String)
    (args : Args) : String :=
  match List.lookup "next" args with
  | some n => n
  | none =>
    if optStrTruthy bp.redirect_url then bp.redirect_url.getD ""
    else if optStrTruthy bp.redirect_to then urlFor (bp.redirect_to.getD "")
    else "/"

/-- `URLObject.with_scheme` on the string representation: used at lines
221-223 of the source to force the https scheme on the callback URL. -/
def withScheme (scheme url : String) : String :=
  match url.splitOn "://" with
  | [] => url
  | _ :: rest =>
    if rest.isEmpty then url
    else scheme ++ "://" ++ String.intercalate "://" rest

/-- How an `authorized` invocation terminates: a redirect response, or an
uncaught KeyError raised by `flask.session[state_key]` when no CSRF state
is stored (line 218 of the source). -/
inductive Outcome where
  | redirect (url : String)
  | keyError (key : String)
deriving DecidableEq, Repr

/-- One call to `self.session.fetch_token` (lines 224-229 of the source):
the token URL, the reconstructed authorization response URL, the client
secret, the extra token URL parameters, and the CSRF state loaded into
`self.session._state` for cross-validation. -/
structure ExchangeCall where
  token_url : String
  authorization_response : String
  client_secret : String
  params : Args
  csrfState : String
deriving DecidableEq, Repr

/-- The payload of one `oauth_error.send` (lines 212-214 of the source). -/
structure ErrorEvent where
  error : String
  error_description : Option String
  error_uri : Option String
deriving DecidableEq, Repr

/-- The outcome and observable effects of one `authorized` invocation.
`setTokenCalls` records the assignments `self.token = token`; per the spec
the token property setter (in the base blueprint, outside this module)
writes each such token through to TokenStore.set. -/
structure AuthorizedResult where
  outcome : Outcome
  flaskSession : Args
  exchangeCall : Option ExchangeCall
  errorEvents : List ErrorEvent
  grantedEvents : List Token
  setTokenCalls : List Token
deriving DecidableEq, Repr

/-- Lines 193-233 of the source: the `authorized` view. `urlFor` embeds
the Flask endpoint resolver, `fetchedToken` the token payload the external
`fetch_token` exchange returns, and `listenerResults` the
(receiver, return value) pairs produced by `oauth_authorized.send`. -/
def authorized (bp : OAuth2ConsumerBlueprint) (urlFor : String → String)
    (req : Request) (fs : Args) (fetchedToken : Token)
    (listenerResults : List (String × PyRet)) : AuthorizedResult :=
  let next_url := computeNextUrl bp urlFor req.args
  if optStrTruthy (List.lookup "error" req.args) then
    { outcome := .redirect next_url
      flaskSession := fs
      exchangeCall := none
      errorEvents := [⟨(List.lookup "error" req.args).getD "",
                       List.lookup "error_description" req.args,
                       List.lookup "error_uri" req.args⟩]
      grantedEvents := []
      setTokenCalls := [] }
  else
    match List.lookup (stateKey bp.name) fs with
    | none =>
      { outcome := .keyError (stateKey bp.name)
        flaskSession := fs
        exchangeCall := none
        errorEvents := []
        grantedEvents := []
        setTokenCalls := [] }
    | some stored =>
      let fs2 := sessDelete fs (stateKey bp.name)
      let cb := if headerGet req.headers "X-Forwarded-Proto" "http" == "https"
                then withScheme "https" req.url else req.url
      let veto := listenerResults.any (fun p => pyEqFalse p.2)
      { outcome := .redirect next_url
        flaskSession := fs2
        exchangeCall := some ⟨bp.token_url, cb, bp.client_secret,
                              bp.token_url_params, stored⟩
        errorEvents := []
        grantedEvents := [fetchedToken]
        setTokenCalls := if veto then [] else [fetchedToken] }

/-- The state value `login` passes to the external
`requests_oauthlib` `authorization_url(url, state=self.state)` call
(line 185-188 of the source). Per the documented contract of that library,
the given state is used when it is truthy and a fresh unpredictable value
is generated otherwise; `fresh` stands for the value the generator would
draw on this call. -/
def newState (configured : Option String) (fresh : String) : String :=
  match configured with
  | some s => if s.isEmpty then fresh else s
  | none => fresh

/-- The observable effects of one `login` invocation: the computed
`redirect_uri`, the authorization URL redirected to, the CSRF state value
stored, and the Flask session store after the write. -/
structure LoginResult where
  redirect_uri : String
  authorizationUrl : String
  storedState : String
  flaskSession : Args
deriving DecidableEq, Repr

/-- Modelled from the spec: the external oauthlib request builder appends
the RFC 6749 section 4.1.1 parameters (response_type, client_id,
redirect_uri, state, scope) and the configured extras to the
authorization URL. Only its dependence on the state value matters to the
claims below. -/
def buildAuthorizationUrl (bp : OAuth2ConsumerBlueprint)
    (redirect_uri state : String) : String :=
  bp.authorization_url ++ "?response_type=code&client_id=" ++ bp.client_id
    ++ "&redirect_uri=" ++ redirect_uri ++ "&state=" ++ state

/-- Lines 179-191 of the source: the `login` view. `urlForCallback` embeds
the Flask `url_for(".authorized", next=..., _external=True, _scheme=...)`
builder, taking the computed secure flag and the `next` argument;
`fresh` is the state value the generator would draw on this call. -/
def login (bp : OAuth2ConsumerBlueprint)
    (urlForCallback : Bool → Option String → String)
    (req : Request) (fs : Args) (fresh : String) : LoginResult :=
  let secure := req.is_secure
    || (headerGet req.headers "X-Forwarded-Proto" "http" == "https")
  let redirect_uri := urlForCallback secure (List.lookup "next" req.args)
  let state := newState bp.state fresh
  { redirect_uri := redirect_uri
    authorizationUrl := buildAuthorizationUrl bp redirect_uri state
    storedState := state
    flaskSession := sessSet fs (stateKey bp.name) state }

/-! ### The URLObject model (external urlobject library)

`OAuth2Session` keeps `base_url` as a `URLObject` and resolves every
request URL against it with `URLObject.relative` (lines 27-34 of the
source). The library parses a URL into its five RFC 3986 components; we
embed that parsed form directly. -/

/-- A parsed URL: the five components of an RFC 3986 URL reference. -/
structure URLObject where
  scheme : String
  netloc : String
  path : String
  query : String
  fragment : String
deriving DecidableEq, Repr

def URLObject.with_scheme (u : URLObject) (s : String) : URLObject :=
  { u with scheme := s }

def URLObject.with_netloc (u : URLObject) (n : String) : URLObject :=
  { u with netloc := n }

def URLObject.with_path (u : URLObject) (p : String) : URLObject :=
  { u with path := p }

def URLObject.with_query (u : URLObject) (q : String) : URLObject :=
  { u with query := q }

/-- Python truthiness of a URLObject: it is a string subclass, so it is
truthy exactly when some component is non-empty. -/
def URLObject.truthy (u : URLObject) : Bool :=
  strTruthy u.scheme || strTruthy u.netloc || strTruthy u.path
    || strTruthy u.query || strTruthy u.fragment

/-- Split a character list at every slash, keeping empty segments, with
the semantics of splitting a path string on "/". -/
def splitSlash : List Char → List (List Char)
  | [] => [[]]
  | c :: rest =>
    let r := splitSlash rest
    if c == '/' then [] :: r
    else
      match r with
      | [] => [[c]]
      | h :: t => (c :: h) :: t

/-- Join path segments back with slashes. -/
def joinSlash : List (List Char) → List Char
  | [] => []
  | [x] => x
  | x :: xs => x ++ '/' :: joinSlash xs

/-- RFC 3986 section 5.2.4 remove_dot_segments over path segments, with
`acc` holding the output segments in reverse. A leading empty segment
marks an absolute path and is never popped by a parent segment. -/
def normSegments (acc : List (List Char)) :
    List (List Char) → List (List Char)
  | [] => acc.reverse
  | seg :: rest =>
    if seg == ['.'] then normSegments acc rest
    else if seg == ['.', '.'] then
      match acc with
      | [] => normSegments [] rest
      | top :: accTl =>
        if top.isEmpty then normSegments acc rest
        else normSegments accTl rest
    else normSegments (seg :: acc) rest

/-- Relative path resolution per RFC 3986 section 5.3, as the urlobject
library implements it for `URLPath.relative`: an absolute relative path
replaces the base path entirely, an empty one keeps it, and otherwise the
relative path is merged onto the directory of the base path and dot
segments are removed. -/
def pathRelative (base rel : String) : String :=
  match rel.data with
  | [] => base
  | '/' :: _ => rel
  | _ =>
    ⟨joinSlash (normSegments []
      ((splitSlash base.data).dropLast ++ splitSlash rel.data))⟩

/-- `URLObject.relative` of the urlobject library: RFC 3986 reference
resolution cascading through the components from left to right. An
absolute URL (non-empty scheme) passes through unchanged. -/
def URLObject.relative (self other : URLObject) : URLObject :=
  if strTruthy other.scheme then other
  else if strTruthy other.netloc then other.with_scheme self.scheme
  else if strTruthy other.path then
    ((other.with_scheme self.scheme).with_netloc self.netloc).with_path
      (pathRelative self.path other.path)
  else if strTruthy other.query then
    ((other.with_scheme self.scheme).with_netloc self.netloc).with_path
      self.path
  else if strTruthy other.fragment then
    (((other.with_scheme self.scheme).with_netloc self.netloc).with_path
      self.path).with_query self.query
  else self

/-- The internal oauthlib `WebApplicationClient` held by the session as
`self._client`: only its `client_id` field matters to the claims. -/
structure WebApplicationClient where
  client_id : String
  token : Option Token
deriving DecidableEq, Repr

/-- The state of an `OAuth2Session` (lines 15-41 of the source) that the
claims read: the `base_url` used for relative URL resolution, the
`client_id`, and the internal oauthlib client. -/
structure OAuth2Session where
  base_url : URLObject
  client_id : String
  _client : WebApplicationClient
deriving DecidableEq, Repr

/-- Lines 29-34 of the source: `OAuth2Session.request` resolves the
request URL against `base_url` when the base URL is truthy, before
delegating to the superclass dispatch. This function is the URL actually
dispatched. -/
def OAuth2Session.requestUrl (sess : OAuth2Session) (url : URLObject) :
    URLObject :=
  if sess.base_url.truthy then sess.base_url.relative url else url

/-- Modelled from the spec: the AuthSession `authorized` predicate is true
iff a non-empty token is currently loaded. (The predicate itself lives in
the session class of the consumer requests module, which proxies the
blueprint token; that module is not part of the sources here, so the spec
sentence and the repository tests define it.) -/
def OAuth2Session.authorized (token : Option Token) : Bool :=
  match token with
  | none => false
  | some t => !t.isEmpty

/-- Lines 170-172 of the source: the `client_id` property getter reads the
session `client_id`. -/
def OAuth2ConsumerBlueprint.client_id_get (sess : OAuth2Session) : String :=
  sess.client_id

/-- Lines 174-177 of the source: the `client_id` property setter writes
both the session `client_id` and the internal client `client_id`. -/
def OAuth2ConsumerBlueprint.client_id_set (sess : OAuth2Session)
    (value : String) : OAuth2Session :=
  { sess with client_id := value
              _client := { sess._client with client_id := value } }

/-! ### General lemmas about the session store -/

/-- After `del d[k]`, looking up `k` finds nothing. -/
theorem lookup_sessDelete_self (fs : Args) (k : String) :
    List.lookup k (sessDelete fs k) = none := by
  induction fs with
  | nil => rfl
  | cons p t ih =>
    obtain ⟨k1, v1⟩ := p
    simp only [sessDelete, List.filter_cons] at ih ⊢
    by_cases h : k1 = k
    · simp [h, ih]
    · have hb : (k1 != k) = true := by simp [h]
      have hk : (k == k1) = false := by simp [Ne.symm h]
      simp [hb, List.lookup_cons, hk, ih]

/-- After `d[k] = v`, looking up `k` finds `v`. -/
theorem lookup_sessSet_self (fs : Args) (k v : String) :
    List.lookup k (sessSet fs k v) = some v := by
  simp [sessSet, List.lookup_cons]

/-! ### Claim theorems -/

/-- Claim C2: for every `authorized` invocation without an `error`
parameter, if no CSRF state is stored under the flow's namespaced key,
the invocation raises an uncaught KeyError (fails closed): no token
exchange is attempted, no events fire, no token is persisted, and the
session store is untouched. -/
theorem authorized_missing_state_fails_closed
    (bp : OAuth2ConsumerBlueprint) (urlFor : String → String) (req : Request)
    (fs : Args) (tok : Token) (listeners : List (String × PyRet))
    (herr : optStrTruthy (List.lookup "error" req.args) = false)
    (hstate : List.lookup (stateKey bp.name) fs = none) :
    authorized bp urlFor req fs tok listeners =
      { outcome := .keyError (stateKey bp.name)
        flaskSession := fs
        exchangeCall := none
        errorEvents := []
        grantedEvents := []
        setTokenCalls := [] } := by
  simp [authorized, herr, hstate]

/-- Witness for C2 at a concrete forged callback with no stored state. -/
theorem authorized_missing_state_fails_closed_witness :
    authorized
      ⟨"flow", "cid", "csec", none, "https://p/auth", [], "https://p/token",
        [], none, none⟩
      (fun s => s)
      ⟨[("code", "abc"), ("state", "S1")], [],
        "http://app/flow/authorized", false⟩
      [] [] [] =
      { outcome := .keyError "flow_oauth_state"
        flaskSession := []
        exchangeCall := none
        errorEvents := []
        grantedEvents := []
        setTokenCalls := [] } :=
  authorized_missing_state_fails_closed _ _ _ _ _ _ (by decide) (by decide)

/-- Claim C3: an `authorized` invocation that reaches CSRF validation
consumes the stored state: the exchange call receives exactly the stored
state, the state key is gone from the session store afterwards, and a
replay of `authorized` on the resulting store fails closed with no
exchange attempted. -/
theorem csrf_state_consumed_exactly_once
    (bp : OAuth2ConsumerBlueprint) (urlFor : String → String)
    (req req2 : Request) (fs : Args) (tok tok2 : Token)
    (listeners listeners2 : List (String × PyRet))
    (herr : optStrTruthy (List.lookup "error" req.args) = false)
    (herr2 : optStrTruthy (List.lookup "error" req2.args) = false)
    (s : String) (hstate : List.lookup (stateKey bp.name) fs = some s) :
    (authorized bp urlFor req fs tok listeners).exchangeCall =
      some ⟨bp.token_url,
            (if headerGet req.headers "X-Forwarded-Proto" "http" == "https"
             then withScheme "https" req.url else req.url),
            bp.client_secret, bp.token_url_params, s⟩ ∧
    List.lookup (stateKey bp.name)
      (authorized bp urlFor req fs tok listeners).flaskSession = none ∧
    (authorized bp urlFor req2
        (authorized bp urlFor req fs tok listeners).flaskSession
        tok2 listeners2).outcome = .keyError (stateKey bp.name) ∧
    (authorized bp urlFor req2
        (authorized bp urlFor req fs tok listeners).flaskSession
        tok2 listeners2).exchangeCall = none := by
  have h1 : (authorized bp urlFor req fs tok listeners).flaskSession =
      sessDelete fs (stateKey bp.name) := by
    simp [authorized, herr, hstate]
  refine ⟨?_, ?_, ?_, ?_⟩
  · simp [authorized, herr, hstate]
  · rw [h1]; exact lookup_sessDelete_self fs (stateKey bp.name)
  · rw [h1]; simp [authorized, herr2, lookup_sessDelete_self]
  · rw [h1]; simp [authorized, herr2, lookup_sessDelete_self]

/-- Witness for C3 at a concrete valid callback followed by a replay. -/
theorem csrf_state_consumed_exactly_once_witness :
    (authorized
      ⟨"flow", "cid", "csec", none, "https://p/auth", [], "https://p/token",
        [], none, none⟩
      (fun s => s)
      ⟨[("code", "abc"), ("state", "S1")], [],
        "http://app/flow/authorized", false⟩
      [("flow_oauth_state", "S1")] [("access_token", "T")] []).exchangeCall =
      some ⟨"https://p/token", "http://app/flow/authorized", "csec", [],
            "S1"⟩ ∧
    List.lookup "flow_oauth_state"
      (authorized
        ⟨"flow", "cid", "csec", none, "https://p/auth", [], "https://p/token",
          [], none, none⟩
        (fun s => s)
        ⟨[("code", "abc"), ("state", "S1")], [],
          "http://app/flow/authorized", false⟩
        [("flow_oauth_state", "S1")] [("access_token", "T")] []).flaskSession
      = none := by
  have h := csrf_state_consumed_exactly_once
    ⟨"flow", "cid", "csec", none, "https://p/auth", [], "https://p/token",
      [], none, none⟩
    (fun s => s)
    ⟨[("code", "abc"), ("state", "S1")], [],
      "http://app/flow/authorized", false⟩
    ⟨[("code", "abc"), ("state", "S1")], [],
      "http://app/flow/authorized", false⟩
    [("flow_oauth_state", "S1")] [("access_token", "T")] [("access_token", "T")]
    [] [] (by decide) (by decide) "S1" (by decide)
  exact ⟨h.1, h.2.1⟩

/-- Claim C4 counterexample: a callback that carries the `error` query
parameter with an empty value does not take the error branch; the token
exchange is invoked anyway, so the claim as stated is false. -/
theorem error_param_empty_still_exchanges_cex :
    List.lookup "error" [("error", ""), ("code", "abc"), ("state", "S1")] =
      some "" ∧
    (authorized
      ⟨"flow", "cid", "csec", none, "https://p/auth", [], "https://p/token",
        [], none, none⟩
      (fun s => s)
      ⟨[("error", ""), ("code", "abc"), ("state", "S1")], [],
        "http://app/flow/authorized", false⟩
      [("flow_oauth_state", "S1")] [("access_token", "T")] []).exchangeCall =
      some ⟨"https://p/token", "http://app/flow/authorized", "csec", [],
            "S1"⟩ := by
  decide

/-- Claim C4 (amended: the `error` parameter must carry a non-empty
value): such an invocation never calls the token exchange, emits exactly
one authorization-error event carrying the error, error_description and
error_uri values from the request, persists nothing, and redirects to
the computed next URL. -/
theorem error_branch_no_exchange
    (bp : OAuth2ConsumerBlueprint) (urlFor : String → String) (req : Request)
    (fs : Args) (tok : Token) (listeners : List (String × PyRet))
    (e : String)
    (he : List.lookup "error" req.args = some e) (hne : e ≠ "") :
    authorized bp urlFor req fs tok listeners =
      { outcome := .redirect (computeNextUrl bp urlFor req.args)
        flaskSession := fs
        exchangeCall := none
        errorEvents := [⟨e, List.lookup "error_description" req.args,
                         List.lookup "error_uri" req.args⟩]
        grantedEvents := []
        setTokenCalls := [] } := by
  have ht : optStrTruthy (some e) = true := by
    simpa [optStrTruthy, strTruthy] using hne
  simp [authorized, he, ht]

/-- Witness for the amended C4 at a concrete denied-consent callback. -/
theorem error_branch_no_exchange_witness :
    authorized
      ⟨"flow", "cid", "csec", none, "https://p/auth", [], "https://p/token",
        [], none, none⟩
      (fun s => s)
      ⟨[("error", "access_denied"), ("error_description", "denied")], [],
        "http://app/flow/authorized", false⟩
      [("flow_oauth_state", "S1")] [] [] =
      { outcome := .redirect "/"
        flaskSession := [("flow_oauth_state", "S1")]
        exchangeCall := none
        errorEvents := [⟨"access_denied", some "denied", none⟩]
        grantedEvents := []
        setTokenCalls := [] } := by
  have h := error_branch_no_exchange
    ⟨"flow", "cid", "csec", none, "https://p/auth", [], "https://p/token",
      [], none, none⟩
    (fun s => s)
    ⟨[("error", "access_denied"), ("error_description", "denied")], [],
      "http://app/flow/authorized", false⟩
    [("flow_oauth_state", "S1")] [] [] "access_denied" (by decide) (by decide)
  simpa using h

/-- Claim C6 counterexample: on the provider-error branch the stored CSRF
state survives — it is still retrievable under the flow's key after the
invocation, so the claim that no state survives the error branch is
false. -/
theorem error_branch_retains_csrf_state_cex :
    List.lookup "flow_oauth_state"
      (authorized
        ⟨"flow", "cid", "csec", none, "https://p/auth", [], "https://p/token",
          [], none, none⟩
        (fun s => s)
        ⟨[("error", "access_denied")], [],
          "http://app/flow/authorized", false⟩
        [("flow_oauth_state", "S1")] [] []).flaskSession = some "S1" := by
  decide

/-- Claim C6 (amended): the provider-error branch retains no *new* state
and performs no exchange or persistence, but it leaves the session store
exactly as it was — in particular a stored CSRF state for this flow's
key survives the error branch. -/
theorem error_branch_leaves_session_untouched
    (bp : OAuth2ConsumerBlueprint) (urlFor : String → String) (req : Request)
    (fs : Args) (tok : Token) (listeners : List (String × PyRet))
    (herr : optStrTruthy (List.lookup "error" req.args) = true) :
    (authorized bp urlFor req fs tok listeners).flaskSession = fs ∧
    (authorized bp urlFor req fs tok listeners).exchangeCall = none ∧
    (authorized bp urlFor req fs tok listeners).setTokenCalls = [] ∧
    (authorized bp urlFor req fs tok listeners).grantedEvents = [] := by
  refine ⟨?_, ?_, ?_, ?_⟩ <;> simp [authorized, herr]

/-- Witness for the amended C6 at a concrete error callback. -/
theorem error_branch_leaves_session_untouched_witness :
    (authorized
      ⟨"flow", "cid", "csec", none, "https://p/auth", [], "https://p/token",
        [], none, none⟩
      (fun s => s)
      ⟨[("error", "access_denied")], [], "http://app/flow/authorized", false⟩
      [("flow_oauth_state", "S1")] [] []).flaskSession =
      [("flow_oauth_state", "S1")] :=
  (error_branch_leaves_session_untouched _ _ _ _ _ _ (by decide)).1

/-- Claim C1: on a successful (non-error, CSRF-valid) `authorized`
invocation, if any granted-event listener returns a False-equivalent
value the token is never persisted; if no listener does, exactly one
persistence call occurs, carrying exactly the token payload returned by
the exchange; and in either case the invocation redirects to the
computed next URL. -/
theorem granted_event_veto_gates_persistence
    (bp : OAuth2ConsumerBlueprint) (urlFor : String → String) (req : Request)
    (fs : Args) (tok : Token) (listeners : List (String × PyRet))
    (herr : optStrTruthy (List.lookup "error" req.args) = false)
    (s : String) (hstate : List.lookup (stateKey bp.name) fs = some s) :
    ((∃ p ∈ listeners, pyEqFalse p.2 = true) →
      (authorized bp urlFor req fs tok listeners).setTokenCalls = []) ∧
    ((∀ p ∈ listeners, pyEqFalse p.2 = false) →
      (authorized bp urlFor req fs tok listeners).setTokenCalls = [tok]) ∧
    (authorized bp urlFor req fs tok listeners).outcome =
      .redirect (computeNextUrl bp urlFor req.args) := by
  refine ⟨?_, ?_, ?_⟩
  · intro hveto
    have hany : (listeners.any fun p => pyEqFalse p.2) = true := by
      rw [List.any_eq_true]
      obtain ⟨p, hp, hp2⟩ := hveto
      exact ⟨p, hp, hp2⟩
    simp [authorized, herr, hstate, hany]
  · intro hno
    have hany : (listeners.any fun p => pyEqFalse p.2) = false := by
      rw [List.any_eq_false]
      intro p hp
      simp [hno p hp]
    simp [authorized, herr, hstate, hany]
  · simp [authorized, herr, hstate]

/-- Witness for C1 at a concrete successful callback: a vetoing listener
suppresses persistence, a non-vetoing listener set persists the exact
exchanged token once, and both redirect to the next URL. -/
theorem granted_event_veto_gates_persistence_witness :
    (authorized
      ⟨"flow", "cid", "csec", none, "https://p/auth", [], "https://p/token",
        [], none, none⟩
      (fun s => s)
      ⟨[("code", "abc"), ("state", "S1")], [],
        "http://app/flow/authorized", false⟩
      [("flow_oauth_state", "S1")] [("access_token", "T")]
      [("listener1", PyRet.pyBool false)]).setTokenCalls = [] ∧
    (authorized
      ⟨"flow", "cid", "csec", none, "https://p/auth", [], "https://p/token",
        [], none, none⟩
      (fun s => s)
      ⟨[("code", "abc"), ("state", "S1")], [],
        "http://app/flow/authorized", false⟩
      [("flow_oauth_state", "S1")] [("access_token", "T")]
      [("listener1", PyRet.pyNone)]).setTokenCalls =
      [[("access_token", "T")]] ∧
    (authorized
      ⟨"flow", "cid", "csec", none, "https://p/auth", [], "https://p/token",
        [], none, none⟩
      (fun s => s)
      ⟨[("code", "abc"), ("state", "S1")], [],
        "http://app/flow/authorized", false⟩
      [("flow_oauth_state", "S1")] [("access_token", "T")]
      [("listener1", PyRet.pyNone)]).outcome = .redirect "/" := by
  refine ⟨?_, ?_, ?_⟩
  · exact (granted_event_veto_gates_persistence _ _ _ _ _ _
      (by decide) "S1" (by decide)).1
      ⟨("listener1", PyRet.pyBool false), by decide, by decide⟩
  · exact (granted_event_veto_gates_persistence _ _ _ _ _ _
      (by decide) "S1" (by decide)).2.1 (by decide)
  · exact (granted_event_veto_gates_persistence _ _ _ _ _ _
      (by decide) "S1" (by decide)).2.2

/-- Claim C5: every redirect produced by `authorized` targets the next
URL computed up front — error-branch invocations included — and that
computation follows the strict precedence: `next` query parameter if the
key is present, else a configured (truthy) static redirect_url, else a
configured (truthy) redirect_to endpoint resolved through url_for, else
the root path. -/
theorem next_url_precedence
    (bp : OAuth2ConsumerBlueprint) (urlFor : String → String) (req : Request)
    (fs : Args) (tok : Token) (listeners : List (String × PyRet)) :
    (∀ u, (authorized bp urlFor req fs tok listeners).outcome = .redirect u →
      u = computeNextUrl bp urlFor req.args) ∧
    (optStrTruthy (List.lookup "error" req.args) = true →
      (authorized bp urlFor req fs tok listeners).outcome =
        .redirect (computeNextUrl bp urlFor req.args)) ∧
    (∀ n, List.lookup "next" req.args = some n →
      computeNextUrl bp urlFor req.args = n) ∧
    (∀ u, List.lookup "next" req.args = none → bp.redirect_url = some u →
      u ≠ "" → computeNextUrl bp urlFor req.args = u) ∧
    (∀ ep, List.lookup "next" req.args = none → bp.redirect_url = none →
      bp.redirect_to = some ep → ep ≠ "" →
      computeNextUrl bp urlFor req.args = urlFor ep) ∧
    (List.lookup "next" req.args = none → bp.redirect_url = none →
      bp.redirect_to = none → computeNextUrl bp urlFor req.args = "/") := by
  refine ⟨?_, ?_, ?_, ?_, ?_, ?_⟩
  · intro u hu
    unfold authorized at hu
    cases herr : optStrTruthy (List.lookup "error" req.args) with
    | true => simp [herr] at hu; exact hu.symm
    | false =>
      simp only [herr, Bool.false_eq_true, if_false] at hu
      cases hst : List.lookup (stateKey bp.name) fs with
      | none => simp [hst] at hu
      | some s => simp [hst] at hu; exact hu.symm
  · intro herr
    simp [authorized, herr]
  · intro n hn
    simp [computeNextUrl, hn]
  · intro u hn hu hne
    have ht : optStrTruthy (some u) = true := by
      simpa [optStrTruthy, strTruthy] using hne
    simp [computeNextUrl, hn, hu, ht]
  · intro ep hn hu hep hne
    have ht : strTruthy ep = true := by
      simpa [strTruthy] using hne
    simp [computeNextUrl, hn, hu, hep, optStrTruthy, ht]
  · intro hn hu hep
    simp [computeNextUrl, hn, hu, hep, optStrTruthy]

/-- Witness for C5: the four precedence scenarios of the spec, obtained
by instantiating the precedence theorem, plus the error-branch redirect
using the same target. -/
theorem next_url_precedence_witness :
    computeNextUrl
      ⟨"flow", "cid", "csec", none, "a", [], "t", [], some "/b", some "ce"⟩
      (fun _ => "/c") [("next", "/a")] = "/a" ∧
    computeNextUrl
      ⟨"flow", "cid", "csec", none, "a", [], "t", [], some "/b", some "ce"⟩
      (fun _ => "/c") [] = "/b" ∧
    computeNextUrl
      ⟨"flow", "cid", "csec", none, "a", [], "t", [], none, some "ce"⟩
      (fun _ => "/c") [] = "/c" ∧
    computeNextUrl
      ⟨"flow", "cid", "csec", none, "a", [], "t", [], none, none⟩
      (fun _ => "/c") [] = "/" ∧
    (authorized
      ⟨"flow", "cid", "csec", none, "a", [], "t", [], some "/b", some "ce"⟩
      (fun _ => "/c")
      ⟨[("next", "/a"), ("error", "access_denied")], [], "u", false⟩
      [] [] []).outcome = .redirect "/a" := by
  refine ⟨?_, ?_, ?_, ?_, ?_⟩
  · exact (next_url_precedence _ (fun _ => "/c")
      ⟨[("next", "/a")], [], "u", false⟩ [] [] []).2.2.1 "/a" (by decide)
  · exact (next_url_precedence _ (fun _ => "/c")
      ⟨[], [], "u", false⟩ [] [] []).2.2.2.1 "/b" (by decide) rfl (by decide)
  · exact (next_url_precedence _ (fun _ => "/c")
      ⟨[], [], "u", false⟩ [] [] []).2.2.2.2.1 "ce" (by decide) rfl rfl
      (by decide)
  · exact (next_url_precedence _ (fun _ => "/c")
      ⟨[], [], "u", false⟩ [] [] []).2.2.2.2.2 (by decide) rfl rfl
  · exact (next_url_precedence _ (fun _ => "/c")
      ⟨[("next", "/a"), ("error", "access_denied")], [], "u", false⟩
      [] [] []).2.1 (by decide)

/-- Claim C7 counterexample: with a static construction-time `state`
configured, two distinct `login` invocations (distinct generator draws)
store the same state value, so per-call uniqueness does not hold
regardless of configuration. -/
theorem login_static_state_reused_cex :
    (login
      ⟨"flow", "cid", "csec", some "STATIC", "https://p/auth", [],
        "https://p/token", [], none, none⟩
      (fun _ _ => "cb") ⟨[], [], "u", false⟩ [] "fresh1").storedState =
      "STATIC" ∧
    (login
      ⟨"flow", "cid", "csec", some "STATIC", "https://p/auth", [],
        "https://p/token", [], none, none⟩
      (fun _ _ => "cb") ⟨[], [], "u", false⟩ [] "fresh2").storedState =
      "STATIC" ∧
    ("fresh1" : String) ≠ "fresh2" := by
  refine ⟨rfl, rfl, by decide⟩

/-- Claim C7 (amended: when no truthy construction-time `state` is
configured, i.e. the default generator is in use): two distinct `login`
invocations of the same flow (distinct generator draws) store two
distinct state values, each under the flow's namespaced key. -/
theorem login_fresh_state_unique
    (bp : OAuth2ConsumerBlueprint)
    (ucb1 ucb2 : Bool → Option String → String)
    (req1 req2 : Request) (fs1 fs2 : Args) (fresh1 fresh2 : String)
    (hcfg : optStrTruthy bp.state = false)
    (hfresh : fresh1 ≠ fresh2) :
    (login bp ucb1 req1 fs1 fresh1).storedState ≠
      (login bp ucb2 req2 fs2 fresh2).storedState ∧
    List.lookup (stateKey bp.name)
      (login bp ucb1 req1 fs1 fresh1).flaskSession =
      some (login bp ucb1 req1 fs1 fresh1).storedState := by
  have hstored : ∀ (ucb : Bool → Option String → String) (req : Request)
      (fs : Args) (fresh : String),
      (login bp ucb req fs fresh).storedState = fresh := by
    intro ucb req fs fresh
    cases hs : bp.state with
    | none => simp [login, newState, hs]
    | some s =>
      have hse : s = "" := by
        simpa [optStrTruthy, strTruthy, hs] using hcfg
      have hemp : ("" : String).isEmpty = true := by decide
      simp [login, newState, hs, hse, hemp]
  refine ⟨?_, ?_⟩
  · rw [hstored ucb1 req1 fs1 fresh1, hstored ucb2 req2 fs2 fresh2]
    exact hfresh
  · exact lookup_sessSet_self fs1 (stateKey bp.name) _

/-- Witness for the amended C7 at two concrete login calls of a flow with
no configured static state. -/
theorem login_fresh_state_unique_witness :
    (login
      ⟨"flow", "cid", "csec", none, "https://p/auth", [], "https://p/token",
        [], none, none⟩
      (fun _ _ => "cb") ⟨[], [], "u", false⟩ [] "A").storedState ≠
      (login
        ⟨"flow", "cid", "csec", none, "https://p/auth", [], "https://p/token",
          [], none, none⟩
        (fun _ _ => "cb") ⟨[], [], "u", false⟩ [] "B").storedState :=
  (login_fresh_state_unique _ _ _ _ _ _ _ _ _ (by decide) (by decide)).1

/-- Claim C8: with a base URL configured, an outgoing request with an
absolute URL (non-empty scheme) is dispatched unchanged, and a relative
path is resolved against the base URL: base
https://api.example.com/v1/ with path users/me dispatches
https://api.example.com/v1/users/me. -/
theorem request_base_url_resolution :
    (∀ (sess : OAuth2Session) (url : URLObject), url.scheme ≠ "" →
      sess.requestUrl url = url) ∧
    OAuth2Session.requestUrl
      ⟨⟨"https", "api.example.com", "/v1/", "", ""⟩, "cid", ⟨"cid", none⟩⟩
      ⟨"", "", "users/me", "", ""⟩ =
      ⟨"https", "api.example.com", "/v1/users/me", "", ""⟩ := by
  constructor
  · intro sess url h
    have hs : strTruthy url.scheme = true := by
      simpa [strTruthy] using h
    by_cases hb : sess.base_url.truthy
    · simp [OAuth2Session.requestUrl, URLObject.relative, hb, hs]
    · simp [OAuth2Session.requestUrl, hb]
  · decide

/-- Witness for C8: an absolute URL passes through a session with a
configured base URL unchanged. -/
theorem request_base_url_resolution_witness :
    OAuth2Session.requestUrl
      ⟨⟨"https", "api.example.com", "/v1/", "", ""⟩, "cid", ⟨"cid", none⟩⟩
      ⟨"https", "other.example.com", "/x", "q", ""⟩ =
      ⟨"https", "other.example.com", "/x", "q", ""⟩ :=
  request_base_url_resolution.1 _ _ (by decide)

/-- Claim C9: the session `authorized` predicate is true iff a non-empty
token is currently loaded; in particular it is true for the bearer token
of the tests and false when no token is loaded. -/
theorem session_authorized_iff_token_loaded :
    (∀ t : Option Token, OAuth2Session.authorized t = true ↔
      ∃ tok, t = some tok ∧ tok ≠ []) ∧
    OAuth2Session.authorized
      (some [("access_token", "deadbeef"), ("token_type", "bearer")]) =
      true ∧
    OAuth2Session.authorized none = false := by
  refine ⟨?_, by decide, rfl⟩
  intro t
  cases t with
  | none => simp [OAuth2Session.authorized]
  | some tok => simp [OAuth2Session.authorized, List.isEmpty_iff]

/-- Witness for C9, instantiating the predicate characterization at a
concrete one-entry token. -/
theorem session_authorized_iff_token_loaded_witness :
    OAuth2Session.authorized (some [("access_token", "T")]) = true :=
  (session_authorized_iff_token_loaded.1
    (some [("access_token", "T")])).mpr ⟨_, rfl, by decide⟩

/-- Claim C10: assigning the blueprint `client_id` property propagates to
the live session: afterwards the session client_id, the internal oauthlib
client client_id, and the property getter all return the new value. -/
theorem client_id_set_propagates (sess : OAuth2Session) (v : String) :
    (OAuth2ConsumerBlueprint.client_id_set sess v).client_id = v ∧
    (OAuth2ConsumerBlueprint.client_id_set sess v)._client.client_id = v ∧
    OAuth2ConsumerBlueprint.client_id_get
      (OAuth2ConsumerBlueprint.client_id_set sess v) = v :=
  ⟨rfl, rfl, rfl⟩

end FlaskDance
